import Mathlib

/-!
Shallow embedding of src/tool/figure-generator.py: a figure-conversion
orchestrator with several backends (drawio, graphviz dot, inkscape,
imagemagick, and the remote kroki service), an existence-based cache gate,
per-backend supported-format lists, and a dispatcher keyed on file
extension.  Paths and file contents are modelled explicitly; external
processes and the remote HTTP service are modelled as parameters/oracles.
-/

/-- Entry of the modelled file system: a regular file with its byte
content, a directory, or nothing at the path. -/
inductive FSEntry where
  | file (content : List Nat)
  | dir
  | absent
deriving DecidableEq, Repr

/-- The file system is a total map from path strings to entries. -/
def FS : Type := String → FSEntry

/-- Point update of the file system. -/
def setFS (fs : FS) (p : String) (e : FSEntry) : FS :=
  fun q => if q = p then e else fs q

/-- Model of os.path.exists: true for a regular file or a directory. -/
def pathExists (fs : FS) (p : String) : Bool :=
  match fs p with
  | .absent => false
  | _ => true

/-- Model of os.path.isfile: true only for a regular file. -/
def isFile (fs : FS) (p : String) : Bool :=
  match fs p with
  | .file _ => true
  | _ => false

/-- FigEngine.check_file_existence (figure-generator.py:26-27):
os.path.exists(file_path) and os.path.isfile(file_path). -/
def checkFileExistence (fs : FS) (p : String) : Bool :=
  pathExists fs p && isFile fs p

/-- Model of the `if not os.path.exists(target): os.mkdir(target)` step:
creates a directory at the path when nothing is there. -/
def mkdirIfAbsent (fs : FS) (p : String) : FS :=
  if pathExists fs p then fs else setFS fs p .dir

/-- Python word character, the ASCII reading of the regex class \w. -/
def isPyWord (c : Char) : Bool :=
  c.isAlphanum || c = '_'

/-- Model of os.path.basename: the segment after the last slash. -/
def basenameList (l : List Char) : List Char :=
  (l.reverse.takeWhile (fun c => c ≠ '/')).reverse

/-- Model of os.path.dirname: the part before the last slash, with
trailing slashes stripped unless the head is all slashes. -/
def dirnameList (l : List Char) : List Char :=
  let r := l.reverse
  let afterRev := r.takeWhile (fun c => c ≠ '/')
  if afterRev.length = r.length then []
  else
    let headRev := r.drop afterRev.length
    if headRev.all (fun c => c = '/') then headRev.reverse
    else (headRev.dropWhile (fun c => c = '/')).reverse

/-- Model of re.sub applied at figure-generator.py:33: removing a final
dot-plus-word-characters group from a name, when one is there. -/
def stripExtList (l : List Char) : List Char :=
  let r := l.reverse
  let run := r.takeWhile isPyWord
  if run ≠ [] ∧ (r.drop run.length).head? = some '.' then
    (r.drop (run.length + 1)).reverse
  else l

/-- Model of the dispatcher regex (figure-generator.py:219): the extension
is the run of word characters after the last dot, when the string ends in
such a run and the run is non-empty. -/
def extOfList (l : List Char) : Option (List Char) :=
  let r := l.reverse
  let run := r.takeWhile isPyWord
  if run ≠ [] ∧ (r.drop run.length).head? = some '.' then
    some run.reverse
  else none

/-- String wrapper of basenameList. -/
def basenameStr (s : String) : String := String.mk (basenameList s.data)

/-- String wrapper of dirnameList. -/
def dirnameStr (s : String) : String := String.mk (dirnameList s.data)

/-- String wrapper of stripExtList. -/
def stripExtStr (s : String) : String := String.mk (stripExtList s.data)

/-- String wrapper of extOfList. -/
def extOfStr (s : String) : Option String :=
  (extOfList s.data).map String.mk

/-- Substring containment, the model of the Python `in` test on strings. -/
def containsSub (pat : List Char) : List Char → Bool
  | [] => pat.isEmpty
  | c :: rest => pat.isPrefixOf (c :: rest) || containsSub pat rest

/-- Result of one FigEngine.conv_single_to call: a fatal configuration
error (exit(1)), a cache-hit no-op, or the execution of a shell command. -/
inductive ConvResult where
  | fatal (msg : String)
  | skipped
  | executed (cmd : String)
deriving DecidableEq, Repr

/-- True when the result ran an external command. -/
def ConvResult.isExecuted : ConvResult → Bool
  | .executed _ => true
  | _ => false

/-- True when the result called exit(1). -/
def ConvResult.isFatal : ConvResult → Bool
  | .fatal _ => true
  | _ => false

/-- The target directory resolved at figure-generator.py:35: the given
target, or a figure directory next to the input when the target is the
empty (falsy) string. -/
def figTargetDir (file target : String) : String :=
  if target = "" then dirnameStr file ++ "/figure" else target

/-- The artifact path resolved at figure-generator.py:43:
target/basename-without-extension.type. -/
def figArtifactPath (file target type : String) : String :=
  figTargetDir file target ++ "/" ++ stripExtStr (basenameStr file) ++ "." ++ type

/-- FigEngine.conv_single_to (figure-generator.py:32-49), used by the
Gradot, Inkcvt and Immcvt backends.  types is the backend's _types list
and getCmd its _get_cmd template over (appath, type, fig_path, file). -/
def figEngineSingle (types : List String)
    (getCmd : String → String → String → String → String)
    (appath : String) (fs : FS) (file target type : String) (force : Bool) :
    ConvResult × FS :=
  let target1 := figTargetDir file target
  let fs1 := mkdirIfAbsent fs target1
  if types ≠ [] ∧ type ∉ types then
    (.fatal ("Error: " ++ appath ++ " can not convert to " ++ type), fs1)
  else
    let figPath := figArtifactPath file target type
    if force || !(checkFileExistence fs1 figPath) then
      (.executed (getCmd appath type figPath file), fs1)
    else (.skipped, fs1)

/-- FigEngine.conv_to (figure-generator.py:51-56): each pooled worker runs
conv_single_to on one file against the same initial file system. -/
def figEngineBatch (types : List String)
    (getCmd : String → String → String → String → String)
    (appath : String) (fs : FS) (files : List String)
    (target type : String) (force : Bool) : List ConvResult :=
  files.map (fun f => (figEngineSingle types getCmd appath fs f target type force).1)

/-- Process exit code of a batch in the sequential reading: exit(1) from
any conversion makes the run exit 1, otherwise it ends with 0. -/
def batchExitCode (rs : List ConvResult) : Nat :=
  if rs.any ConvResult.isFatal then 1 else 0

/-- True when some conversion of the batch executed an external command. -/
def batchHasExecution (rs : List ConvResult) : Bool :=
  rs.any ConvResult.isExecuted

/-- Gradot._get_cmd (figure-generator.py:125-126). -/
def gradotCmd (appath type figpath file : String) : String :=
  appath ++ " -T" ++ type ++ " -o " ++ figpath ++ " " ++ file

/-- Gradot._types (figure-generator.py:122-123). -/
def gradotTypes : List String :=
  ["pdf", "ps", "png", "svg", "fig", "gif", "jpg", "jpeg", "json"]

/-- Inkcvt._get_cmd (figure-generator.py:134-135). -/
def inkcvtCmd (appath type figpath file : String) : String :=
  appath ++ " --export-type=" ++ type ++ " -o " ++ figpath ++ " " ++ file

/-- Inkcvt._types (figure-generator.py:132). -/
def inkcvtTypes : List String :=
  ["eps", "emf", "wmf", "xaml", "pdf", "ps", "png", "svg"]

/-- Immcvt._get_cmd (figure-generator.py:145-146); Immcvt keeps the empty
_types list, so it is not format-checked. -/
def immcvtCmd (appath type figpath file : String) : String :=
  appath ++ " " ++ file ++ " " ++ figpath

/-- One run of FigEngine.conv_single_to together with the effect of the
executed shell command, given by the oracle exec. -/
def figEngineRun (types : List String)
    (getCmd : String → String → String → String → String)
    (exec : String → FS → FS)
    (appath : String) (fs : FS) (file target type : String) (force : Bool) :
    ConvResult × FS :=
  match figEngineSingle types getCmd appath fs file target type force with
  | (.executed cmd, fs1) => (.executed cmd, exec cmd fs1)
  | r => r

/-- Number of external executions a result stands for. -/
def execCount : ConvResult → Nat
  | .executed _ => 1
  | _ => 0

/-- Character class [\w-] of the diagram-name regex. -/
def isNameChar (c : Char) : Bool :=
  c.isAlphanum || c = '_' || c = '-'

/-- At a position right after a literal name-equals-quote, the regex piece
matching a quoted [\w-]* group followed by some later closing angle
bracket: the greedy capture is the maximal [\w-] run, the next character
must be the closing quote, and a greater-than sign must occur after it. -/
def tryNameAt (l : List Char) : Option (List Char) :=
  let run := l.takeWhile isNameChar
  match l.drop run.length with
  | '"' :: rest2 => if rest2.contains '>' then some run else none
  | _ => none

/-- Scan of the greedy dot-star before the name attribute: the rightmost
position where the name-equals-quote literal starts a successful
tail-match wins, mirroring backtracking of the Python regex engine. -/
def findNameFrom : List Char → Option (List Char)
  | [] => none
  | c :: rest =>
    match findNameFrom rest with
    | some r => some r
    | none =>
      if ("name=".data ++ ['"']).isPrefixOf (c :: rest) then
        tryNameAt ((c :: rest).drop ("name=".data ++ ['"']).length)
      else none

/-- Model of diagname_re.match(line) at figure-generator.py:61,67: leading
spaces, the literal diagram-tag opener, then the name attribute as matched
by tryNameAt/findNameFrom.  Yields the captured name on success. -/
def diagNameMatch (line : String) : Option String :=
  let l := line.data.dropWhile (fun c => c = ' ')
  if ("<diagram".data).isPrefixOf l then
    (findNameFrom (l.drop ("<diagram".data).length)).map String.mk
  else none

/-- A line counts as a page declaration when it contains the diagram-tag
opener as a substring (figure-generator.py:64). -/
def isDiagLine (line : String) : Bool :=
  containsSub ("<diagram".data) line.data

/-- The page-declaration lines of a document, in document order. -/
def diagLines (lines : List String) : List String :=
  lines.filter isDiagLine

/-- One step of the diagram-name accumulation loop
(figure-generator.py:66-71): a matched name appends a dash-name suffix, a
failed match appends the positional fallback built from the number of
suffixes collected so far plus one. -/
def diagNameStep (acc : List String) (dc : String) : List String :=
  match diagNameMatch dc with
  | some n => acc ++ ["-" ++ n]
  | none => acc ++ ["-page-" ++ toString (acc.length + 1)]

/-- Drawio._get_diagram_names (figure-generator.py:59-76) on the document
given as its list of lines. -/
def getDiagramNames (lines : List String) : List String :=
  let dls := diagLines lines
  if 1 < dls.length then dls.foldl diagNameStep []
  else if dls.length = 1 then [""]
  else []

/-- The suffix a declaration line at 0-based position k among the
declaration lines contributes. -/
def diagSuffix (k : Nat) (dc : String) : String :=
  match diagNameMatch dc with
  | some n => "-" ++ n
  | none => "-page-" ++ toString (k + 1)

/-- Suffixes of a run of declaration lines starting at 0-based position k. -/
def suffixesFrom (k : Nat) : List String → List String
  | [] => []
  | dc :: ls => diagSuffix k dc :: suffixesFrom (k + 1) ls

/-- The per-page artifact paths built at figure-generator.py:102. -/
def drawioFigPaths (target diofn type : String) (names : List String) :
    List String :=
  names.map (fun d => target ++ "/" ++ diofn ++ d ++ "." ++ type)

/-- Argument pack of one Drawio._convert call (figure-generator.py:103). -/
structure DrawioCmd where
  appath : String
  format : String
  pageIndex : Nat
  addopt : String
  output : String
  input : String
deriving DecidableEq, Repr

/-- The command line Drawio._convert builds (figure-generator.py:81-82). -/
def drawioConvCmd (c : DrawioCmd) : String :=
  c.appath ++ " --export --format " ++ c.format ++ " --page-index " ++
    toString c.pageIndex ++ " " ++ c.addopt ++ " --output " ++ c.output ++
    " " ++ c.input ++ " >/dev/null 2>&1"

/-- The per-page command list of figure-generator.py:103-104: for each
page index, either the full argument pack, or the empty pack (modelled as
none) when the artifact is already there and force is unset. -/
def drawioCmds (appath type addopt file : String) (fs : FS) (force : Bool)
    (paths : List String) : List (Option DrawioCmd) :=
  (List.range paths.length).map (fun i =>
    if !(checkFileExistence fs (paths.getD i "")) || force then
      some ⟨appath, type, i, addopt, paths.getD i "", file⟩
    else none)

/-- Replacement of every non-overlapping occurrence of a non-empty
pattern, scanning left to right: the model of Python str.replace as used
at figure-generator.py:90.  The skip counter carries the tail of a
just-matched occurrence past the structural recursion on the list. -/
def replaceAllAux (pat repl : List Char) : Nat → List Char → List Char
  | _ + 1, [] => []
  | skip + 1, _ :: rest => replaceAllAux pat repl skip rest
  | 0, [] => []
  | 0, c :: rest =>
    if pat.isPrefixOf (c :: rest) ∧ pat ≠ [] then
      repl ++ replaceAllAux pat repl (pat.length - 1) rest
    else c :: replaceAllAux pat repl 0 rest

/-- Python str.replace for a non-empty pattern. -/
def pyReplace (s pat repl : String) : String :=
  String.mk (replaceAllAux pat.data repl.data 0 s.data)

/-- Result of one Drawio.conv_single_to call: exit(1) on an unsupported
format, or the per-page command list handed to the page-level pool. -/
inductive DrawioRun where
  | fatal (msg : String)
  | jobs (cmds : List (Option DrawioCmd))
deriving DecidableEq, Repr

/-- True when the drawio run called exit(1). -/
def DrawioRun.isFatal : DrawioRun → Bool
  | .fatal _ => true
  | _ => false

/-- Drawio._types (figure-generator.py:95). -/
def drawioTypes : List String :=
  ["pdf", "png", "jpg", "svg", "vsdx", "xml"]

/-- Drawio.conv_single_to (figure-generator.py:89-108) on a document given
as its list of lines; page conversions themselves are external. -/
def drawioConvSingle (appath : String) (fs : FS)
    (file target type : String) (force : Bool) (doc : List String) :
    DrawioRun × FS :=
  let diofn := pyReplace (basenameStr file) ".drawio" ""
  let target1 := if target = "" then dirnameStr file ++ "/figure" else target
  let fs1 := mkdirIfAbsent fs target1
  if type ∉ drawioTypes then
    (.fatal ("Error: drawio can not convert to " ++ type), fs1)
  else
    let names := getDiagramNames doc
    let addopt := if type = "pdf" then "--crop" else ""
    let paths := drawioFigPaths target1 diofn type names
    (.jobs (drawioCmds appath type addopt file fs1 force paths), fs1)

/-- UTF-8 encoding of one character, as bytes. -/
def utf8EncodeChar (c : Char) : List Nat :=
  let n := c.toNat
  if n < 128 then [n]
  else if n < 2048 then [192 + n / 64, 128 + n % 64]
  else if n < 65536 then
    [224 + n / 4096, 128 + n / 64 % 64, 128 + n % 64]
  else
    [240 + n / 262144, 128 + n / 4096 % 64, 128 + n / 64 % 64, 128 + n % 64]

/-- UTF-8 encoding of a string, the model of str.encode at
figure-generator.py:159. -/
def utf8Encode (s : String) : List Nat :=
  s.data.flatMap utf8EncodeChar

/-- The URL-safe base64 alphabet, with minus and underscore at 62/63. -/
def b64Char (n : Nat) : Char :=
  ("ABCDEFGHIJKLMNOPQRSTUVWXYZabcdefghijklmnopqrstuvwxyz0123456789-_".data).getD n 'A'

/-- Base64 body: three bytes to four alphabet characters, with the padded
short tails of one or two leftover bytes. -/
def b64Chunks : List Nat → List Char
  | [] => []
  | [a] => [b64Char (a / 4), b64Char (a % 4 * 16), '=', '=']
  | [a, b] => [b64Char (a / 4), b64Char (a % 4 * 16 + b / 16), b64Char (b % 16 * 4), '=']
  | a :: b :: c :: rest =>
    b64Char (a / 4) :: b64Char (a % 4 * 16 + b / 16) ::
      b64Char (b % 16 * 4 + c / 64) :: b64Char (c % 64) :: b64Chunks rest

/-- Model of base64.urlsafe_b64encode (figure-generator.py:158): URL-safe
alphabet, padding preserved. -/
def base64urlEncode (bytes : List Nat) : String :=
  String.mk (b64Chunks bytes)

/-- Kroki._tool_box (figure-generator.py:151-152). -/
def krokiToolBox : List (String × String) :=
  [(".mmd", "mermaid"), (".dot", "graphviz"), (".puml", "plantuml")]

/-- Dictionary lookup in the tool box; none models the KeyError raised for
an extension outside the table. -/
def lookupTool (ext : String) : Option String :=
  (krokiToolBox.find? (fun p => p.1 = ext)).map Prod.snd

/-- Model of os.path.splitext on a basename: split at the last dot when
some character before it is not a dot, else the extension is empty. -/
def splitextList (b : List Char) : List Char × List Char :=
  let r := b.reverse
  let afterRev := r.takeWhile (fun c => c ≠ '.')
  if afterRev.length = r.length then (b, [])
  else
    let stemRev := r.drop (afterRev.length + 1)
    if stemRev.any (fun c => c ≠ '.') then
      (stemRev.reverse, '.' :: afterRev.reverse)
    else (b, [])

/-- String wrapper of splitextList. -/
def splitextPair (s : String) : String × String :=
  let p := splitextList s.data
  (String.mk p.1, String.mk p.2)

/-- The artifact path Kroki.conv_single_to computes
(figure-generator.py:170). -/
def krokiFigPath (file target type : String) : String :=
  target ++ "/" ++ (splitextPair (basenameStr file)).1 ++ "." ++ type

/-- The request URL of figure-generator.py:162-166, over the compressor
oracle standing for zlib.compress at level 9. -/
def krokiRequestUrl (compress : List Nat → List Nat)
    (tool type content : String) : String :=
  "https://kroki.io/" ++ tool ++ "/" ++ type ++ "/" ++
    base64urlEncode (compress (utf8Encode content))

/-- Result of one Kroki.conv_single_to call: the KeyError crash of an
unknown extension, a cache-hit no-op, a written artifact, or a reported
remote-response error.  The issued request URL is kept in the last two. -/
inductive KrokiOutcome where
  | lookupFailure
  | skipped
  | written (url : String) (path : String)
  | remoteError (url : String)
deriving DecidableEq, Repr

/-- The URL of the GET request the outcome issued, when one was issued. -/
def KrokiOutcome.urlOf : KrokiOutcome → Option String
  | .written u _ => some u
  | .remoteError u => some u
  | _ => none

/-- True for the reported (non-aborting) remote-response error. -/
def KrokiOutcome.isRemoteError : KrokiOutcome → Bool
  | .remoteError _ => true
  | _ => false

/-- True when the outcome crashes the run: only the uncaught KeyError of a
missing tool-box entry does; the remote-response error is only printed. -/
def KrokiOutcome.aborts : KrokiOutcome → Bool
  | .lookupFailure => true
  | _ => false

/-- Kroki.conv_single_to (figure-generator.py:154-177).  The source text
read from the file, the HTTP status and the response body are inputs; the
zlib compressor is an oracle. -/
def krokiConvSingle (compress : List Nat → List Nat) (fs : FS)
    (file target type : String) (force : Bool) (content : String)
    (status : Nat) (body : List Nat) : KrokiOutcome × FS :=
  let bn := basenameStr file
  let fname := (splitextPair bn).1
  let fsufx := (splitextPair bn).2
  match lookupTool fsufx with
  | none => (.lookupFailure, fs)
  | some tool =>
    let url := krokiRequestUrl compress tool type content
    let fs1 := mkdirIfAbsent fs target
    let figPath := target ++ "/" ++ fname ++ "." ++ type
    if force || !(checkFileExistence fs1 figPath) then
      if status = 200 then (.written url figPath, setFS fs1 figPath (.file body))
      else (.remoteError url, fs1)
    else (.skipped, fs1)

/-- Exit code of a Kroki batch (Kroki inherits FigEngine.conv_to): a
crashed worker surfaces through r.get() and ends the run non-zero, while
printed remote errors leave the exit code at 0. -/
def krokiBatchExitCode (rs : List KrokiOutcome) : Nat :=
  if rs.any KrokiOutcome.aborts then 1 else 0

/-- Classification of one input path by the dispatcher loop
(figure-generator.py:220-236). -/
inductive SrcClass where
  | missing
  | noExt
  | drawioC
  | dotC
  | mmdC
  | figC
deriving DecidableEq, Repr

/-- The dispatcher's per-file classification: missing paths and paths
without a recognizable extension are diagnosed and skipped; drawio, dot
and mmd go to their backends; everything else is a raw image. -/
def classifySource (fs : FS) (f : String) : SrcClass :=
  if pathExists fs f = false then .missing
  else
    match extOfStr f with
    | none => .noExt
    | some e =>
      if e = "drawio" then .drawioC
      else if e = "dot" then .dotC
      else if e = "mmd" then .mmdC
      else .figC

/-- The raw-image split of figure-generator.py:243: files whose path
contains the dot-svg substring go to the Inkcvt backend. -/
def svgFigs (figs : List String) : List String :=
  figs.filter (fun f => containsSub ".svg".data f.data)

/-- The complementary raw-image split of figure-generator.py:244, routed
to the Immcvt backend. -/
def otherFigs (figs : List String) : List String :=
  figs.filter (fun f => !(containsSub ".svg".data f.data))

/-- One accumulation step appends exactly the positional suffix of the
current accumulator length. -/
theorem diagNameStep_eq (acc : List String) (dc : String) :
    diagNameStep acc dc = acc ++ [diagSuffix acc.length dc] := by
  cases h : diagNameMatch dc <;> simp [diagNameStep, diagSuffix, h]

/-- The accumulation loop of Drawio._get_diagram_names appends, for each
declaration line, the suffix indexed by its position after the seed. -/
theorem foldl_diagNameStep (ls : List String) :
    ∀ acc : List String,
      ls.foldl diagNameStep acc = acc ++ suffixesFrom acc.length ls := by
  induction ls with
  | nil => intro acc; simp [suffixesFrom]
  | cons dc ls ih =>
    intro acc
    rw [List.foldl_cons, diagNameStep_eq, ih]
    simp [suffixesFrom]

/-- A run of declaration lines yields one suffix per line. -/
theorem suffixesFrom_length (ls : List String) :
    ∀ k, (suffixesFrom k ls).length = ls.length := by
  induction ls with
  | nil => intro k; simp [suffixesFrom]
  | cons dc ls ih => intro k; simp [suffixesFrom, ih]

/-- The suffix at position j of a run starting at k is the one of its line
at absolute position k + j. -/
theorem suffixesFrom_getD (ls : List String) :
    ∀ k j, j < ls.length →
      (suffixesFrom k ls).getD j "" = diagSuffix (k + j) (ls.getD j "") := by
  induction ls with
  | nil => intro k j hj; simp at hj
  | cons dc ls ih =>
    intro k j hj
    cases j with
    | zero => simp [suffixesFrom]
    | succ j =>
      have hj2 : j < ls.length := by
        simp only [List.length_cons] at hj
        omega
      have := ih (k + 1) j hj2
      simpa [suffixesFrom, Nat.add_assoc, Nat.add_comm, Nat.add_left_comm] using this

/-- With at least two declaration lines, _get_diagram_names is the suffix
run of the declaration lines starting at position zero. -/
theorem getDiagramNames_of_many (lines : List String)
    (h : 1 < (diagLines lines).length) :
    getDiagramNames lines = suffixesFrom 0 (diagLines lines) := by
  unfold getDiagramNames
  simp only [if_pos h]
  simpa using foldl_diagNameStep (diagLines lines) []

/-- The artifact-path builder of figure-generator.py:102 is injective in
the page suffix. -/
theorem drawioPath_injective (target diofn type : String) :
    Function.Injective
      (fun d : String => target ++ "/" ++ diofn ++ d ++ "." ++ type) := by
  intro d1 d2 h
  have h2 := congrArg String.data h
  simp only [String.data_append, List.append_assoc] at h2
  exact String.ext (List.append_cancel_right
    (List.append_cancel_left (List.append_cancel_left
      (List.append_cancel_left h2))))

/-- Creating a directory at q keeps every regular file where it is. -/
theorem mkdirIfAbsent_keepsFile (fs : FS) (q p : String) (b : List Nat)
    (h : fs p = FSEntry.file b) : mkdirIfAbsent fs q p = FSEntry.file b := by
  unfold mkdirIfAbsent setFS
  by_cases hq : pathExists fs q
  · simp [hq, h]
  · simp only [hq, if_false]
    by_cases hpq : p = q
    · exfalso
      rw [hpq] at h
      simp [pathExists, h] at hq
    · simp [hpq, h]

/-- Creating a directory at q never creates a regular file. -/
theorem mkdirIfAbsent_noNewFile (fs : FS) (q p : String) (b : List Nat)
    (h : mkdirIfAbsent fs q p = FSEntry.file b) : fs p = FSEntry.file b := by
  unfold mkdirIfAbsent setFS at h
  by_cases hq : pathExists fs q
  · simpa [hq] using h
  · simp only [hq, if_false] at h
    by_cases hpq : p = q
    · simp [hpq] at h
    · simpa [hpq] using h

/-- Creating the directory twice is the same as once. -/
theorem mkdirIfAbsent_idem (fs : FS) (q : String) :
    mkdirIfAbsent (mkdirIfAbsent fs q) q = mkdirIfAbsent fs q := by
  unfold mkdirIfAbsent setFS
  by_cases hq : pathExists fs q
  · simp [hq]
  · simp only [hq, if_false]
    have : pathExists (fun r => if r = q then FSEntry.dir else fs r) q = true := by
      simp [pathExists]
    simp [this]

/-- The cache gate passes a path exactly when a regular file is there. -/
theorem checkFileExistence_iff (fs : FS) (p : String) :
    checkFileExistence fs p = true ↔ ∃ b, fs p = FSEntry.file b := by
  unfold checkFileExistence pathExists isFile
  cases h : fs p <;> simp [h]

/-- Entry i of the per-page command list, for i below the page count. -/
theorem drawioCmds_getD (appath type addopt file : String) (fs : FS)
    (force : Bool) (paths : List String) (i : Nat) (hi : i < paths.length) :
    (drawioCmds appath type addopt file fs force paths).getD i none =
      if !(checkFileExistence fs (paths.getD i "")) || force then
        some ⟨appath, type, i, addopt, paths.getD i "", file⟩
      else none := by
  unfold drawioCmds
  rw [List.getD_eq_getElem?_getD, List.getElem?_map, List.getElem?_range hi]
  rfl

/-- The artifact path at index i is the path built from the suffix at
index i. -/
theorem drawioFigPaths_getD (target diofn type : String)
    (names : List String) (i : Nat) (hi : i < names.length) :
    (drawioFigPaths target diofn type names).getD i "" =
      target ++ "/" ++ diofn ++ names.getD i "" ++ "." ++ type := by
  unfold drawioFigPaths
  rw [List.getD_eq_getElem?_getD, List.getElem?_map,
    List.getElem?_eq_getElem hi]
  rw [List.getD_eq_getElem?_getD, List.getElem?_eq_getElem hi]
  rfl

/-- Sample multi-page drawio document: one unnamed and one named page
declaration. -/
def twoPageDoc : List String :=
  ["<mxfile>", "  <diagram id=\"a\">x</diagram>",
   "  <diagram name=\"B\">y</diagram>"]

/-- Sample drawio document without any page-declaration line. -/
def noDiagDoc : List String := ["<mxfile host=\"app\">"]

/-- Sample drawio document with two pages carrying the same name. -/
def dupNameDoc : List String :=
  ["<diagram name=\"A\">x</diagram>", "<diagram name=\"A\">y</diagram>"]

/-- C6: in a drawio document with more than one page-declaration line, the
declaration line at 0-based position j contributes, at index j of the
suffix list, the dash-name suffix of its extracted name, or the positional
fallback built from its 1-based position j + 1 among the declaration lines
(in document order) when no name is extractable. -/
theorem drawio_page_suffix_positions (lines : List String)
    (hK : 1 < (diagLines lines).length) (j : Nat)
    (hj : j < (diagLines lines).length) :
    (getDiagramNames lines).getD j "" =
      match diagNameMatch ((diagLines lines).getD j "") with
      | some n => "-" ++ n
      | none => "-page-" ++ toString (j + 1) := by
  rw [getDiagramNames_of_many lines hK, suffixesFrom_getD _ 0 j hj]
  simp [diagSuffix]

/-- Witness for C6 on twoPageDoc: the nameless first declaration falls
back to the 1-based positional suffix, the named second keeps its name. -/
theorem drawio_page_suffix_positions_witness :
    (getDiagramNames twoPageDoc).getD 0 "" = "-page-1" ∧
    (getDiagramNames twoPageDoc).getD 1 "" = "-B" :=
  ⟨(drawio_page_suffix_positions twoPageDoc (by decide) 0 (by decide)).trans
      (by decide),
   (drawio_page_suffix_positions twoPageDoc (by decide) 1 (by decide)).trans
      (by decide)⟩

/-- Counterexample to C1 as stated: a document with zero page markers
yields zero artifact paths, not one; and two markers sharing a name yield
two equal suffixes, hence coinciding (not distinct) artifact paths. -/
theorem drawio_pagecount_claim_counterexample :
    drawioFigPaths "figures" "d" "pdf" (getDiagramNames noDiagDoc) = [] ∧
    getDiagramNames dupNameDoc = ["-A", "-A"] ∧
    ¬ (drawioFigPaths "figures" "d" "pdf" (getDiagramNames dupNameDoc)).Nodup := by
  exact ⟨by decide, by decide, by decide⟩

/-- C1 amended: with K ≥ 2 page markers the document yields exactly K
artifact paths, deterministic from the document, pairwise distinct
whenever the derived suffix list is duplicate-free; with exactly one
marker, one artifact path with the empty suffix; with zero markers, no
artifact paths at all. -/
theorem drawio_pagecount_invariant (target diofn type : String)
    (lines : List String) :
    (1 < (diagLines lines).length →
      (drawioFigPaths target diofn type (getDiagramNames lines)).length =
        (diagLines lines).length ∧
      ((getDiagramNames lines).Nodup →
        (drawioFigPaths target diofn type (getDiagramNames lines)).Nodup)) ∧
    ((diagLines lines).length = 1 →
      getDiagramNames lines = [""] ∧
      drawioFigPaths target diofn type (getDiagramNames lines) =
        [target ++ "/" ++ diofn ++ "." ++ type]) ∧
    ((diagLines lines).length = 0 →
      drawioFigPaths target diofn type (getDiagramNames lines) = []) := by
  refine ⟨fun hK => ⟨?_, ?_⟩, fun h1 => ?_, fun h0 => ?_⟩
  · rw [getDiagramNames_of_many lines hK]
    simp [drawioFigPaths, suffixesFrom_length]
  · intro hnd
    exact List.Nodup.map (drawioPath_injective target diofn type) hnd
  · have hnames : getDiagramNames lines = [""] := by
      simp [getDiagramNames, h1]
    refine ⟨hnames, ?_⟩
    rw [hnames]
    simp only [drawioFigPaths, List.map_cons, List.map_nil]
    have : target ++ "/" ++ diofn ++ "" ++ "." ++ type =
        target ++ "/" ++ diofn ++ "." ++ type := by
      apply String.ext
      simp [String.data_append]
    rw [this]
  · have hnames : getDiagramNames lines = [] := by
      simp [getDiagramNames, h0]
    rw [hnames]
    simp [drawioFigPaths]

/-- Witness for C1 (amended) on the sample documents: two pages with
distinct suffixes give two distinct paths; a single marker gives the
empty-suffix path; zero markers give nothing. -/
theorem drawio_pagecount_invariant_witness :
    (drawioFigPaths "figs" "d" "pdf" (getDiagramNames twoPageDoc)).length = 2 ∧
    (drawioFigPaths "figs" "d" "pdf" (getDiagramNames twoPageDoc)).Nodup ∧
    drawioFigPaths "figs" "d" "pdf"
        (getDiagramNames ["<diagram name=\"Solo\">x</diagram>"]) =
      ["figs" ++ "/" ++ "d" ++ "." ++ "pdf"] ∧
    drawioFigPaths "figs" "d" "pdf" (getDiagramNames noDiagDoc) = [] := by
  refine ⟨?_, ?_, ?_, ?_⟩
  · exact ((drawio_pagecount_invariant "figs" "d" "pdf" twoPageDoc).1
      (by decide)).1.trans (by decide)
  · exact ((drawio_pagecount_invariant "figs" "d" "pdf" twoPageDoc).1
      (by decide)).2 (by decide)
  · exact ((drawio_pagecount_invariant "figs" "d" "pdf"
      ["<diagram name=\"Solo\">x</diagram>"]).2.1 (by decide)).2
  · exact (drawio_pagecount_invariant "figs" "d" "pdf" noDiagDoc).2.2 (by decide)

/-- C5: whenever the export command at 0-based position i of the per-page
command list is built, it carries page index i and writes to the artifact
path built from the suffix at index i of the ordered suffix list; the
rendered command line passes exactly those two values to the external
tool. -/
theorem drawio_page_index_alignment (target diofn type appath addopt file :
    String) (fs : FS) (force : Bool) (names : List String) (i : Nat)
    (c : DrawioCmd) (hi : i < names.length)
    (h : (drawioCmds appath type addopt file fs force
        (drawioFigPaths target diofn type names)).getD i none = some c) :
    c.pageIndex = i ∧
    c.output = target ++ "/" ++ diofn ++ names.getD i "" ++ "." ++ type ∧
    drawioConvCmd c = appath ++ " --export --format " ++ type ++
      " --page-index " ++ toString i ++ " " ++ addopt ++ " --output " ++
      (target ++ "/" ++ diofn ++ names.getD i "" ++ "." ++ type) ++ " " ++
      file ++ " >/dev/null 2>&1" := by
  have hi2 : i < (drawioFigPaths target diofn type names).length := by
    simpa [drawioFigPaths] using hi
  rw [drawioCmds_getD appath type addopt file fs force _ i hi2] at h
  rw [drawioFigPaths_getD target diofn type names i hi] at h
  by_cases hc : (!(checkFileExistence fs
      (target ++ "/" ++ diofn ++ names.getD i "" ++ "." ++ type)) || force) = true
  · rw [if_pos hc] at h
    have hc2 := Option.some.inj h
    subst hc2
    exact ⟨rfl, rfl, rfl⟩
  · rw [if_neg hc] at h
    exact absurd h (by simp)

/-- Witness for C5: a concrete two-page command list whose entry 1 is
built against an empty file system, with page index 1 and the second
suffix in its output path. -/
theorem drawio_page_index_alignment_witness :
    DrawioCmd.pageIndex ⟨"drawio", "png", 1, "", "figs/d-B.png", "d.drawio"⟩ = 1 ∧
    DrawioCmd.output ⟨"drawio", "png", 1, "", "figs/d-B.png", "d.drawio"⟩ =
      "figs" ++ "/" ++ "d" ++ ["-A", "-B"].getD 1 "" ++ "." ++ "png" ∧
    drawioConvCmd ⟨"drawio", "png", 1, "", "figs/d-B.png", "d.drawio"⟩ =
      "drawio" ++ " --export --format " ++ "png" ++ " --page-index " ++
      toString 1 ++ " " ++ "" ++ " --output " ++
      ("figs" ++ "/" ++ "d" ++ ["-A", "-B"].getD 1 "" ++ "." ++ "png") ++
      " " ++ "d.drawio" ++ " >/dev/null 2>&1" :=
  drawio_page_index_alignment "figs" "d" "png" "drawio" "" "d.drawio"
    (fun _ => FSEntry.absent) false ["-A", "-B"] 1
    ⟨"drawio", "png", 1, "", "figs/d-B.png", "d.drawio"⟩
    (by decide) (by decide)

/-- C2: for a format-checked backend (non-empty _types) and a requested
format outside the list, every conversion of the batch ends in the fatal
unsupported-format error before building or executing any external
command, the whole batch contains no execution, the run exits 1; the
Drawio backend's own gate behaves the same way. -/
theorem format_gate_aborts (types : List String)
    (getCmd : String → String → String → String → String)
    (appath : String) (fs : FS) (files : List String)
    (file target type : String) (force : Bool) (doc : List String)
    (hne : types ≠ []) (hnm : type ∉ types) :
    (figEngineSingle types getCmd appath fs file target type force).1 =
      ConvResult.fatal ("Error: " ++ appath ++ " can not convert to " ++ type) ∧
    (∀ r ∈ figEngineBatch types getCmd appath fs files target type force,
      r = ConvResult.fatal ("Error: " ++ appath ++ " can not convert to " ++ type)) ∧
    batchHasExecution
      (figEngineBatch types getCmd appath fs files target type force) = false ∧
    (files ≠ [] →
      batchExitCode
        (figEngineBatch types getCmd appath fs files target type force) = 1) ∧
    (type ∉ drawioTypes →
      (drawioConvSingle appath fs file target type force doc).1 =
        DrawioRun.fatal ("Error: drawio can not convert to " ++ type)) := by
  have hsingle : ∀ f : String,
      (figEngineSingle types getCmd appath fs f target type force).1 =
        ConvResult.fatal ("Error: " ++ appath ++ " can not convert to " ++ type) := by
    intro f
    unfold figEngineSingle
    rw [if_pos ⟨hne, hnm⟩]
  refine ⟨hsingle file, ?_, ?_, ?_, ?_⟩
  · intro r hr
    obtain ⟨f, _, hf⟩ := List.mem_map.mp hr
    rw [← hf]
    exact hsingle f
  · unfold batchHasExecution
    rw [List.any_eq_false]
    intro r hr
    obtain ⟨f, _, hf⟩ := List.mem_map.mp hr
    rw [← hf, hsingle f]
    simp [ConvResult.isExecuted]
  · intro hfe
    obtain ⟨f, fl, hfl⟩ := List.exists_cons_of_ne_nil hfe
    have hany : (figEngineBatch types getCmd appath fs files target
        type force).any ConvResult.isFatal = true := by
      rw [List.any_eq_true]
      refine ⟨(figEngineSingle types getCmd appath fs f target type force).1,
        ?_, ?_⟩
      · rw [hfl]
        exact List.mem_map_of_mem _ (List.mem_cons_self f fl)
      · rw [hsingle f]
        rfl
    simp [batchExitCode, hany]
  · intro hdr
    unfold drawioConvSingle
    rw [if_pos hdr]

/-- Witness for C2: requesting webp from the dot backend (and from
drawio) aborts every job of a two-file batch with no execution. -/
theorem format_gate_aborts_witness :
    (figEngineSingle gradotTypes gradotCmd "/usr/bin/dot"
        (fun _ => FSEntry.absent) "g.dot" "figures" "webp" false).1 =
      ConvResult.fatal ("Error: " ++ "/usr/bin/dot" ++ " can not convert to " ++ "webp") ∧
    batchHasExecution (figEngineBatch gradotTypes gradotCmd "/usr/bin/dot"
      (fun _ => FSEntry.absent) ["g.dot", "h.dot"] "figures" "webp" false) = false ∧
    batchExitCode (figEngineBatch gradotTypes gradotCmd "/usr/bin/dot"
      (fun _ => FSEntry.absent) ["g.dot", "h.dot"] "figures" "webp" false) = 1 ∧
    (drawioConvSingle "/opt/drawio/drawio" (fun _ => FSEntry.absent)
        "d.drawio" "figures" "webp" false twoPageDoc).1 =
      DrawioRun.fatal ("Error: drawio can not convert to " ++ "webp") := by
  have h := format_gate_aborts gradotTypes gradotCmd "/usr/bin/dot"
    (fun _ => FSEntry.absent) ["g.dot", "h.dot"] "g.dot" "figures" "webp"
    false twoPageDoc (by decide) (by decide)
  have h2 := format_gate_aborts drawioTypes
    (fun a _ p f => a ++ p ++ f) "/opt/drawio/drawio"
    (fun _ => FSEntry.absent) [] "d.drawio" "figures" "webp" false twoPageDoc
    (by decide) (by decide)
  exact ⟨h.1, h.2.2.1, h.2.2.2.1 (by decide), h2.2.2.2.2 (by decide)⟩

/-- Creating a directory elsewhere keeps a directory where it is. -/
theorem mkdirIfAbsent_keepsDir (fs : FS) (q p : String)
    (h : fs p = FSEntry.dir) : mkdirIfAbsent fs q p = FSEntry.dir := by
  unfold mkdirIfAbsent setFS
  by_cases hq : pathExists fs q
  · simp [hq, h]
  · simp only [hq, if_false]
    by_cases hpq : p = q
    · simp [hpq]
    · simp [hpq, h]

/-- C8: with the force flag set the action is built and executed for every
backend regardless of a pre-existing artifact — the generic engine builds
and runs its command, every drawio page command is built, and the kroki
request is issued with a 200 response overwriting the artifact path with
the response body. -/
theorem force_overrides_cache :
    (∀ (types : List String)
        (getCmd : String → String → String → String → String)
        (appath : String) (fs : FS) (file target type : String),
      (types = [] ∨ type ∈ types) →
      (figEngineSingle types getCmd appath fs file target type true).1 =
        ConvResult.executed
          (getCmd appath type (figArtifactPath file target type) file)) ∧
    (∀ (appath type addopt file : String) (fs : FS) (paths : List String)
        (i : Nat), i < paths.length →
      (drawioCmds appath type addopt file fs true paths).getD i none =
        some ⟨appath, type, i, addopt, paths.getD i "", file⟩) ∧
    (∀ (compress : List Nat → List Nat) (fs : FS)
        (file target type content : String) (body : List Nat) (tool : String),
      lookupTool (splitextPair (basenameStr file)).2 = some tool →
      (krokiConvSingle compress fs file target type true content 200 body).1 =
        KrokiOutcome.written (krokiRequestUrl compress tool type content)
          (krokiFigPath file target type) ∧
      (krokiConvSingle compress fs file target type true content 200 body).2
          (krokiFigPath file target type) = FSEntry.file body) := by
  refine ⟨?_, ?_, ?_⟩
  · intro types getCmd appath fs file target type hok
    unfold figEngineSingle
    have hng : ¬(types ≠ [] ∧ type ∉ types) := by
      rcases hok with h | h
      · exact fun hc => hc.1 h
      · exact fun hc => hc.2 h
    rw [if_neg hng]
    simp
  · intro appath type addopt file fs paths i hi
    rw [drawioCmds_getD appath type addopt file fs true paths i hi]
    simp
  · intro compress fs file target type content body tool hl
    constructor
    · simp [krokiConvSingle, hl, krokiFigPath]
    · simp [krokiConvSingle, hl, krokiFigPath, setFS]

/-- Witness for C8: with force set, a dot conversion whose artifact is
already present still executes, the cached drawio page command is still
built, and kroki overwrites the existing artifact with the new body. -/
theorem force_overrides_cache_witness :
    (figEngineSingle gradotTypes gradotCmd "/usr/bin/dot"
        (fun _ => FSEntry.file [1]) "g.dot" "figures" "svg" true).1 =
      ConvResult.executed (gradotCmd "/usr/bin/dot" "svg"
        (figArtifactPath "g.dot" "figures" "svg") "g.dot") ∧
    (drawioCmds "drawio" "pdf" "--crop" "d.drawio"
        (fun _ => FSEntry.file [1]) true ["figures/d.pdf"]).getD 0 none =
      some ⟨"drawio", "pdf", 0, "--crop", ["figures/d.pdf"].getD 0 "", "d.drawio"⟩ ∧
    (krokiConvSingle id (fun _ => FSEntry.file [1]) "seq.mmd" "figures"
        "svg" true "A" 200 [9]).2 (krokiFigPath "seq.mmd" "figures" "svg") =
      FSEntry.file [9] :=
  ⟨force_overrides_cache.1 gradotTypes gradotCmd "/usr/bin/dot"
      (fun _ => FSEntry.file [1]) "g.dot" "figures" "svg" (Or.inr (by decide)),
   force_overrides_cache.2.1 "drawio" "pdf" "--crop" "d.drawio"
      (fun _ => FSEntry.file [1]) ["figures/d.pdf"] 0 (by decide),
   (force_overrides_cache.2.2 id (fun _ => FSEntry.file [1]) "seq.mmd"
      "figures" "svg" "A" [9] "mermaid" (by decide)).2⟩

/-- C10: the cache gate passes exactly when a regular file is at the
destination; a directory there counts as absent, so the conversion action
is still executed with the force flag unset. -/
theorem cache_gate_requires_regular_file :
    (∀ (fs : FS) (p : String),
      checkFileExistence fs p = true ↔ ∃ b, fs p = FSEntry.file b) ∧
    (∀ (types : List String)
        (getCmd : String → String → String → String → String)
        (appath : String) (fs : FS) (file target type : String),
      (types = [] ∨ type ∈ types) →
      fs (figArtifactPath file target type) = FSEntry.dir →
      (figEngineSingle types getCmd appath fs file target type false).1 =
        ConvResult.executed
          (getCmd appath type (figArtifactPath file target type) file)) := by
  refine ⟨checkFileExistence_iff, ?_⟩
  intro types getCmd appath fs file target type hok hdir
  have hdir1 : mkdirIfAbsent fs (figTargetDir file target)
      (figArtifactPath file target type) = FSEntry.dir :=
    mkdirIfAbsent_keepsDir fs _ _ hdir
  have hng : ¬(types ≠ [] ∧ type ∉ types) := by
    rcases hok with h | h
    · exact fun hc => hc.1 h
    · exact fun hc => hc.2 h
  unfold figEngineSingle
  rw [if_neg hng]
  have hchk : checkFileExistence
      (mkdirIfAbsent fs (figTargetDir file target))
      (figArtifactPath file target type) = false := by
    unfold checkFileExistence isFile
    rw [hdir1]
    simp
  simp [hchk]

/-- Witness for C10: a directory sitting at the destination path does not
satisfy the gate, and the dot conversion executes without force. -/
theorem cache_gate_requires_regular_file_witness :
    (checkFileExistence
        (fun p => if p = "figures/g.svg" then FSEntry.dir else FSEntry.absent)
        "figures/g.svg" = true ↔
      ∃ b, (fun p => if p = "figures/g.svg" then FSEntry.dir else FSEntry.absent)
        "figures/g.svg" = FSEntry.file b) ∧
    (figEngineSingle gradotTypes gradotCmd "/usr/bin/dot"
        (fun p => if p = "figures/g.svg" then FSEntry.dir else FSEntry.absent)
        "g.dot" "figures" "svg" false).1 =
      ConvResult.executed (gradotCmd "/usr/bin/dot" "svg"
        (figArtifactPath "g.dot" "figures" "svg") "g.dot") :=
  ⟨cache_gate_requires_regular_file.1 _ "figures/g.svg",
   cache_gate_requires_regular_file.2 gradotTypes gradotCmd "/usr/bin/dot"
     (fun p => if p = "figures/g.svg" then FSEntry.dir else FSEntry.absent)
     "g.dot" "figures" "svg" (Or.inr (by decide)) (by decide)⟩

/-- Creating a directory elsewhere keeps regular-file status. -/
theorem isFile_mkdirIfAbsent (fs : FS) (q p : String)
    (h : isFile fs p = true) : isFile (mkdirIfAbsent fs q) p = true := by
  obtain ⟨b, hb⟩ : ∃ b, fs p = FSEntry.file b := by
    unfold isFile at h
    rcases hfs : fs p with b | _ | _ <;> rw [hfs] at h
    · exact ⟨b, rfl⟩
    · simp at h
    · simp at h
  unfold isFile
  rw [mkdirIfAbsent_keepsFile fs q p b hb]

/-- The cache gate passes wherever a regular file sits. -/
theorem checkFileExistence_of_isFile (fs : FS) (p : String)
    (h : isFile fs p = true) : checkFileExistence fs p = true := by
  rw [checkFileExistence_iff]
  unfold isFile at h
  rcases hfs : fs p with b | _ | _ <;> rw [hfs] at h
  · exact ⟨b, rfl⟩
  · simp at h
  · simp at h

/-- C4: when the destination artifact is already a regular file and force
is unset, the generic engine, the drawio page scheduler and the kroki
backend all skip without any external command or remote request and
without touching the file system beyond the mkdir step; consequently two
consecutive runs of the same generic conversion, with an executor that
does produce the artifact, execute the external action at most once. -/
theorem idempotent_cache_skip :
    (∀ (types : List String)
        (getCmd : String → String → String → String → String)
        (appath : String) (fs : FS) (file target type : String) (b : List Nat),
      (types = [] ∨ type ∈ types) →
      fs (figArtifactPath file target type) = FSEntry.file b →
      figEngineSingle types getCmd appath fs file target type false =
        (ConvResult.skipped, mkdirIfAbsent fs (figTargetDir file target))) ∧
    (∀ (appath type addopt file : String) (fs : FS) (paths : List String),
      (∀ p ∈ paths, checkFileExistence fs p = true) →
      drawioCmds appath type addopt file fs false paths =
        List.replicate paths.length none) ∧
    (∀ (compress : List Nat → List Nat) (fs : FS)
        (file target type content : String) (status : Nat)
        (body b : List Nat) (tool : String),
      lookupTool (splitextPair (basenameStr file)).2 = some tool →
      mkdirIfAbsent fs target (krokiFigPath file target type) =
        FSEntry.file b →
      krokiConvSingle compress fs file target type false content status body =
        (KrokiOutcome.skipped, mkdirIfAbsent fs target)) ∧
    (∀ (types : List String)
        (getCmd : String → String → String → String → String)
        (exec : String → FS → FS) (appath : String) (fs : FS)
        (file target type : String),
      (types = [] ∨ type ∈ types) →
      (∀ fsx : FS,
        isFile (exec (getCmd appath type (figArtifactPath file target type)
          file) fsx) (figArtifactPath file target type) = true) →
      execCount (figEngineRun types getCmd exec appath fs
          file target type false).1 +
        execCount (figEngineRun types getCmd exec appath
          (figEngineRun types getCmd exec appath fs file target type false).2
          file target type false).1 ≤ 1) := by
  have hng : ∀ (types : List String) (type : String),
      (types = [] ∨ type ∈ types) → ¬(types ≠ [] ∧ type ∉ types) := by
    intro types type hok
    rcases hok with h | h
    · exact fun hc => hc.1 h
    · exact fun hc => hc.2 h
  have hskip : ∀ (types : List String)
      (getCmd : String → String → String → String → String)
      (appath : String) (fs : FS) (file target type : String),
      (types = [] ∨ type ∈ types) →
      checkFileExistence (mkdirIfAbsent fs (figTargetDir file target))
        (figArtifactPath file target type) = true →
      figEngineSingle types getCmd appath fs file target type false =
        (ConvResult.skipped, mkdirIfAbsent fs (figTargetDir file target)) := by
    intro types getCmd appath fs file target type hok hchk
    unfold figEngineSingle
    rw [if_neg (hng types type hok)]
    simp [hchk]
  refine ⟨?_, ?_, ?_, ?_⟩
  · intro types getCmd appath fs file target type b hok hfile
    refine hskip types getCmd appath fs file target type hok ?_
    rw [checkFileExistence_iff]
    exact ⟨b, mkdirIfAbsent_keepsFile fs _ _ b hfile⟩
  · intro appath type addopt file fs paths hall
    apply List.ext_getElem
    · simp [drawioCmds]
    · intro i h1 h2
      have hi : i < paths.length := by simpa [drawioCmds] using h1
      have hmem : paths.getD i "" ∈ paths := by
        rw [List.getD_eq_getElem paths "" hi]
        exact List.getElem_mem hi
      have hchk := hall (paths.getD i "") hmem
      simp only [drawioCmds, List.getElem_map, List.getElem_range,
        List.getElem_replicate]
      rw [List.getD_eq_getElem?_getD] at hchk
      simp [hchk]
  · intro compress fs file target type content status body b tool hl hfile
    have hchk : checkFileExistence (mkdirIfAbsent fs target)
        (krokiFigPath file target type) = true := by
      rw [checkFileExistence_iff]
      exact ⟨b, hfile⟩
    unfold krokiFigPath at hchk
    simp [krokiConvSingle, hl, hchk]
  · intro types getCmd exec appath fs file target type hok hexec
    by_cases hc : checkFileExistence (mkdirIfAbsent fs (figTargetDir file
        target)) (figArtifactPath file target type) = true
    · have h1 := hskip types getCmd appath fs file target type hok hc
      have hr1 : figEngineRun types getCmd exec appath fs
          file target type false =
          (ConvResult.skipped, mkdirIfAbsent fs (figTargetDir file target)) := by
        unfold figEngineRun
        rw [h1]
      have hc2 : checkFileExistence (mkdirIfAbsent (mkdirIfAbsent fs
          (figTargetDir file target)) (figTargetDir file target))
          (figArtifactPath file target type) = true := by
        rw [mkdirIfAbsent_idem]
        exact hc
      have h2 := hskip types getCmd appath
        (mkdirIfAbsent fs (figTargetDir file target))
        file target type hok hc2
      have hr2 : figEngineRun types getCmd exec appath
          (mkdirIfAbsent fs (figTargetDir file target))
          file target type false =
          (ConvResult.skipped,
           mkdirIfAbsent (mkdirIfAbsent fs (figTargetDir file target))
             (figTargetDir file target)) := by
        unfold figEngineRun
        rw [h2]
      rw [hr1]
      simp only [hr1, hr2, execCount]
      omega
    · have h1 : figEngineSingle types getCmd appath fs file target
          type false =
          (ConvResult.executed (getCmd appath type
            (figArtifactPath file target type) file),
           mkdirIfAbsent fs (figTargetDir file target)) := by
        unfold figEngineSingle
        rw [if_neg (hng types type hok)]
        simp only [Bool.false_or]
        rw [Bool.eq_false_iff.mpr hc]
        simp
      have hr1 : figEngineRun types getCmd exec appath fs
          file target type false =
          (ConvResult.executed (getCmd appath type
            (figArtifactPath file target type) file),
           exec (getCmd appath type (figArtifactPath file target type) file)
             (mkdirIfAbsent fs (figTargetDir file target))) := by
        unfold figEngineRun
        rw [h1]
      set fs2 := exec (getCmd appath type (figArtifactPath file target type)
        file) (mkdirIfAbsent fs (figTargetDir file target)) with hfs2
      have hfile2 : isFile fs2 (figArtifactPath file target type) = true :=
        hexec _
      have hfile3 : isFile (mkdirIfAbsent fs2 (figTargetDir file target))
          (figArtifactPath file target type) = true :=
        isFile_mkdirIfAbsent fs2 _ _ hfile2
      have hc3 : checkFileExistence (mkdirIfAbsent fs2
          (figTargetDir file target)) (figArtifactPath file target type) =
          true :=
        checkFileExistence_of_isFile _ _ hfile3
      have h2 := hskip types getCmd appath fs2 file target type hok hc3
      have hr2 : figEngineRun types getCmd exec appath fs2
          file target type false =
          (ConvResult.skipped, mkdirIfAbsent fs2 (figTargetDir file target)) := by
        unfold figEngineRun
        rw [h2]
      rw [hr1]
      simp only [hr2, execCount]
      omega

/-- File system holding one regular file at the dot artifact path. -/
def fsWithDotArtifact : FS :=
  fun p => if p = "figures/g.svg" then FSEntry.file [7] else FSEntry.absent

/-- Executor oracle that writes the dot artifact, standing for a
successful external dot run. -/
def dotExec : String → FS → FS :=
  fun _ fsx => setFS fsx "figures/g.svg" (FSEntry.file [7])

/-- Witness for C4: a cached dot conversion and a cached kroki conversion
skip; the cached drawio page list is all-none; and two forced-off runs of
a dot conversion from an empty file system execute at most once. -/
theorem idempotent_cache_skip_witness :
    figEngineSingle gradotTypes gradotCmd "/usr/bin/dot" fsWithDotArtifact
        "g.dot" "figures" "svg" false =
      (ConvResult.skipped,
       mkdirIfAbsent fsWithDotArtifact (figTargetDir "g.dot" "figures")) ∧
    drawioCmds "drawio" "pdf" "--crop" "d.drawio"
        (fun _ => FSEntry.file [2]) false ["figures/d-A.pdf", "figures/d-B.pdf"] =
      List.replicate (["figures/d-A.pdf", "figures/d-B.pdf"] : List String).length none ∧
    krokiConvSingle id (fun _ => FSEntry.file [3]) "seq.mmd" "figures" "svg"
        false "A" 404 [] =
      (KrokiOutcome.skipped, mkdirIfAbsent (fun _ => FSEntry.file [3]) "figures") ∧
    execCount (figEngineRun gradotTypes gradotCmd dotExec "/usr/bin/dot"
        (fun _ => FSEntry.absent) "g.dot" "figures" "svg" false).1 +
      execCount (figEngineRun gradotTypes gradotCmd dotExec "/usr/bin/dot"
        (figEngineRun gradotTypes gradotCmd dotExec "/usr/bin/dot"
          (fun _ => FSEntry.absent) "g.dot" "figures" "svg" false).2
        "g.dot" "figures" "svg" false).1 ≤ 1 :=
  ⟨idempotent_cache_skip.1 gradotTypes gradotCmd "/usr/bin/dot"
      fsWithDotArtifact "g.dot" "figures" "svg" [7] (Or.inr (by decide))
      (by decide),
   idempotent_cache_skip.2.1 "drawio" "pdf" "--crop" "d.drawio"
      (fun _ => FSEntry.file [2]) ["figures/d-A.pdf", "figures/d-B.pdf"]
      (by decide),
   idempotent_cache_skip.2.2.1 id (fun _ => FSEntry.file [3]) "seq.mmd"
      "figures" "svg" "A" 404 [] [3] "mermaid" (by decide) (by decide),
   idempotent_cache_skip.2.2.2 gradotTypes gradotCmd dotExec "/usr/bin/dot"
      (fun _ => FSEntry.absent) "g.dot" "figures" "svg" (Or.inr (by decide))
      (fun fsx => by
        have hp : figArtifactPath "g.dot" "figures" "svg" = "figures/g.svg" := by
          decide
        simp [dotExec, setFS, isFile, hp])⟩

/-- C3 amended: with the cache gate passing and a non-200 status, the
kroki conversion reports a remote-response error carrying the request URL,
writes nothing (the file system only gains the mkdir step, which creates
no regular file), leaves sibling outcomes untouched, and the batch exit
code is unchanged by the failure — in particular it does not reflect it. -/
theorem kroki_remote_error_no_write (compress : List Nat → List Nat)
    (fs : FS) (file target type content : String) (force : Bool)
    (status : Nat) (body : List Nat) (tool : String)
    (rs : List KrokiOutcome)
    (hl : lookupTool (splitextPair (basenameStr file)).2 = some tool)
    (hgate : force = true ∨
      checkFileExistence (mkdirIfAbsent fs target)
        (krokiFigPath file target type) = false)
    (hs : status ≠ 200) :
    (krokiConvSingle compress fs file target type force content status
        body).1 =
      KrokiOutcome.remoteError (krokiRequestUrl compress tool type content) ∧
    (krokiConvSingle compress fs file target type force content status
        body).2 = mkdirIfAbsent fs target ∧
    (∀ p b, mkdirIfAbsent fs target p = FSEntry.file b →
      fs p = FSEntry.file b) ∧
    krokiBatchExitCode (rs ++ [(krokiConvSingle compress fs file target
        type force content status body).1]) = krokiBatchExitCode rs := by
  have hg : (force || !(checkFileExistence (mkdirIfAbsent fs target)
      (target ++ "/" ++ (splitextPair (basenameStr file)).1 ++ "." ++
        type))) = true := by
    unfold krokiFigPath at hgate
    rcases hgate with h | h
    · rw [h]
      rfl
    · rw [h]
      simp
  have hout : (krokiConvSingle compress fs file target type force content
      status body).1 =
      KrokiOutcome.remoteError (krokiRequestUrl compress tool type content) := by
    simp [krokiConvSingle, hl, hg, hs]
  refine ⟨hout, ?_, ?_, ?_⟩
  · simp [krokiConvSingle, hl, hg, hs]
  · intro p b h
    exact mkdirIfAbsent_noNewFile fs target p b h
  · rw [hout]
    simp [krokiBatchExitCode, List.any_append, KrokiOutcome.aborts]

/-- Witness for C3 (amended): the concrete 404 scenario of the spec on
seq.mmd reports the remote error and leaves the exit code of the
surrounding batch at its previous value. -/
theorem kroki_remote_error_no_write_witness :
    (krokiConvSingle id (fun _ => FSEntry.absent) "seq.mmd" "figures" "svg"
        false "sequenceDiagram" 404 []).1 =
      KrokiOutcome.remoteError
        (krokiRequestUrl id "mermaid" "svg" "sequenceDiagram") ∧
    krokiBatchExitCode [(krokiConvSingle id (fun _ => FSEntry.absent)
        "seq.mmd" "figures" "svg" false "sequenceDiagram" 404 []).1] =
      krokiBatchExitCode [] :=
  ⟨(kroki_remote_error_no_write id (fun _ => FSEntry.absent) "seq.mmd"
      "figures" "svg" "sequenceDiagram" false 404 [] "mermaid" []
      (by decide) (Or.inr (by decide)) (by decide)).1,
   (kroki_remote_error_no_write id (fun _ => FSEntry.absent) "seq.mmd"
      "figures" "svg" "sequenceDiagram" false 404 [] "mermaid" []
      (by decide) (Or.inr (by decide)) (by decide)).2.2.2⟩

/-- Counterexample to C3 as stated: in the spec's own 404 scenario the
remote-response error is reported, yet the process exit code is 0, so it
does not reflect the failure. -/
theorem kroki_exit_code_counterexample :
    ((krokiConvSingle id (fun _ => FSEntry.absent) "seq.mmd" "figures"
        "svg" false "sequenceDiagram" 404 []).1).isRemoteError = true ∧
    krokiBatchExitCode [(krokiConvSingle id (fun _ => FSEntry.absent)
        "seq.mmd" "figures" "svg" false "sequenceDiagram" 404 []).1] = 0 := by
  exact ⟨by decide, by decide⟩

/-- C7: whenever the kroki gate passes, the GET request carries exactly
the URL https-kroki-io slash keyword slash format slash token, where the
keyword comes from the fixed extension table (mmd to mermaid, dot to
graphviz, puml to plantuml) and the token is the padded URL-safe base64
encoding of the compressor output (zlib at level 9, modelled as the
oracle) on the UTF-8 bytes of the source text. -/
theorem kroki_request_url_shape (compress : List Nat → List Nat) (fs : FS)
    (file target type content : String) (force : Bool) (status : Nat)
    (body : List Nat)
    (hgate : force = true ∨
      checkFileExistence (mkdirIfAbsent fs target)
        (krokiFigPath file target type) = false) :
    ((splitextPair (basenameStr file)).2 = ".mmd" →
      ((krokiConvSingle compress fs file target type force content status
          body).1).urlOf =
        some ("https://kroki.io/" ++ "mermaid" ++ "/" ++ type ++ "/" ++
          base64urlEncode (compress (utf8Encode content)))) ∧
    ((splitextPair (basenameStr file)).2 = ".dot" →
      ((krokiConvSingle compress fs file target type force content status
          body).1).urlOf =
        some ("https://kroki.io/" ++ "graphviz" ++ "/" ++ type ++ "/" ++
          base64urlEncode (compress (utf8Encode content)))) ∧
    ((splitextPair (basenameStr file)).2 = ".puml" →
      ((krokiConvSingle compress fs file target type force content status
          body).1).urlOf =
        some ("https://kroki.io/" ++ "plantuml" ++ "/" ++ type ++ "/" ++
          base64urlEncode (compress (utf8Encode content)))) := by
  have hg : (force || !(checkFileExistence (mkdirIfAbsent fs target)
      (target ++ "/" ++ (splitextPair (basenameStr file)).1 ++ "." ++
        type))) = true := by
    unfold krokiFigPath at hgate
    rcases hgate with h | h
    · rw [h]
      rfl
    · rw [h]
      simp
  refine ⟨fun hext => ?_, fun hext => ?_, fun hext => ?_⟩
  · have hl : lookupTool (splitextPair (basenameStr file)).2 =
        some "mermaid" := by
      rw [hext]
      decide
    by_cases h200 : status = 200 <;>
      simp [krokiConvSingle, hl, hg, h200, KrokiOutcome.urlOf,
        krokiRequestUrl]
  · have hl : lookupTool (splitextPair (basenameStr file)).2 =
        some "graphviz" := by
      rw [hext]
      decide
    by_cases h200 : status = 200 <;>
      simp [krokiConvSingle, hl, hg, h200, KrokiOutcome.urlOf,
        krokiRequestUrl]
  · have hl : lookupTool (splitextPair (basenameStr file)).2 =
        some "plantuml" := by
      rw [hext]
      decide
    by_cases h200 : status = 200 <;>
      simp [krokiConvSingle, hl, hg, h200, KrokiOutcome.urlOf,
        krokiRequestUrl]

/-- Witness for C7: each of the three markup extensions yields its
keyword in the issued URL for a concrete conversion. -/
theorem kroki_request_url_shape_witness :
    ((krokiConvSingle id (fun _ => FSEntry.absent) "seq.mmd" "figures"
        "svg" false "A" 200 [1]).1).urlOf =
      some ("https://kroki.io/" ++ "mermaid" ++ "/" ++ "svg" ++ "/" ++
        base64urlEncode (id (utf8Encode "A"))) ∧
    ((krokiConvSingle id (fun _ => FSEntry.absent) "g.dot" "figures"
        "svg" false "A" 200 [1]).1).urlOf =
      some ("https://kroki.io/" ++ "graphviz" ++ "/" ++ "svg" ++ "/" ++
        base64urlEncode (id (utf8Encode "A"))) ∧
    ((krokiConvSingle id (fun _ => FSEntry.absent) "u.puml" "figures"
        "svg" false "A" 200 [1]).1).urlOf =
      some ("https://kroki.io/" ++ "plantuml" ++ "/" ++ "svg" ++ "/" ++
        base64urlEncode (id (utf8Encode "A"))) :=
  ⟨(kroki_request_url_shape id (fun _ => FSEntry.absent) "seq.mmd"
      "figures" "svg" "A" false 200 [1] (Or.inr (by decide))).1 (by decide),
   (kroki_request_url_shape id (fun _ => FSEntry.absent) "g.dot"
      "figures" "svg" "A" false 200 [1] (Or.inr (by decide))).2.1 (by decide),
   (kroki_request_url_shape id (fun _ => FSEntry.absent) "u.puml"
      "figures" "svg" "A" false 200 [1] (Or.inr (by decide))).2.2 (by decide)⟩

/-- C9: among the raw-image inputs the dispatcher hands to the image
backends, a file goes to the Inkcvt (inkscape) list exactly when the
dot-svg substring occurs anywhere in its path, and to the Immcvt
(imagemagick) list otherwise; an existing file with a word-character
extension outside drawio, dot and mmd is classified as a raw image, and in
particular x.svg.png is classified as a raw image and routed to the
inkscape list. -/
theorem raw_image_svg_routing :
    (∀ (figs : List String) (f : String),
      f ∈ svgFigs figs ↔ f ∈ figs ∧ containsSub ".svg".data f.data = true) ∧
    (∀ (figs : List String) (f : String),
      f ∈ otherFigs figs ↔ f ∈ figs ∧ containsSub ".svg".data f.data = false) ∧
    (∀ (fs : FS) (f e : String),
      pathExists fs f = true → extOfStr f = some e →
      e ≠ "drawio" → e ≠ "dot" → e ≠ "mmd" →
      classifySource fs f = SrcClass.figC) ∧
    (classifySource (fun _ => FSEntry.file []) "x.svg.png" = SrcClass.figC ∧
      svgFigs ["x.svg.png"] = ["x.svg.png"] ∧
      otherFigs ["x.svg.png"] = []) := by
  refine ⟨?_, ?_, ?_, by decide, by decide, by decide⟩
  · intro figs f
    simp [svgFigs, List.mem_filter]
  · intro figs f
    simp [otherFigs, List.mem_filter]
  · intro fs f e hex hext hd1 hd2 hd3
    unfold classifySource
    rw [hex, hext]
    simp [hd1, hd2, hd3]

/-- Witness for C9: an existing y.png is classified as a raw image, and
membership in the inkscape list for x.svg.png follows from the substring
test. -/
theorem raw_image_svg_routing_witness :
    classifySource (fun _ => FSEntry.file []) "y.png" = SrcClass.figC ∧
    ("x.svg.png" ∈ svgFigs ["x.svg.png", "y.png"] ↔
      "x.svg.png" ∈ ["x.svg.png", "y.png"] ∧
        containsSub ".svg".data "x.svg.png".data = true) :=
  ⟨raw_image_svg_routing.2.2.1 (fun _ => FSEntry.file []) "y.png" "png"
      (by decide) (by decide) (by decide) (by decide) (by decide),
   raw_image_svg_routing.1 ["x.svg.png", "y.png"] "x.svg.png"⟩
